import Mathlib

/-!
Shallow embedding of `bitwarden_to_google.py`: a one-shot converter from
Bitwarden export records (CSV rows or JSON items) to Google's password-CSV
schema.  Python strings are modelled as Lean `String`; the Python string
operations used by the script (`split`, `startswith`, `in`, `strip`,
`replace`, `lower`) are modelled below over the character list of the
string; `urllib.parse.urlparse(...).netloc` is modelled for the inputs on
which the script calls it (strings starting with `http://` or `https://`).
File I/O is modelled at the data boundary: the CSV reader receives the
parsed rows (key/value pairs, as produced by `csv.DictReader`), the JSON
reader receives the parsed items, and the writer produces the list of
output rows (each a list of the five field values, as handed to
`csv.DictWriter`).
-/

/-- ASCII whitespace, as recognised by Python `str.strip()` on ASCII text:
space, tab, newline, carriage return, vertical tab, form feed. -/
def pyIsSpace (c : Char) : Bool :=
  c == ' ' || c == '\t' || c == '\n' || c == '\r' ||
  c == Char.ofNat 11 || c == Char.ofNat 12

/-- Python `s.strip()` on the character list: drop whitespace from both ends. -/
def stripChars (cs : List Char) : List Char :=
  ((cs.dropWhile pyIsSpace).reverse.dropWhile pyIsSpace).reverse

/-- Python `s.strip()`. -/
def pyStrip (s : String) : String :=
  String.mk (stripChars s.toList)

/-- Python `s.split(sep)` for a one-character separator: splits at every
occurrence, keeping empty pieces (so `"a,".split(',') == ["a", ""]`). -/
def splitChar (sep : Char) : List Char → List (List Char)
  | [] => [[]]
  | c :: rest =>
    match splitChar sep rest with
    | [] => [[c]]
    | g :: gs => if c = sep then [] :: g :: gs else (c :: g) :: gs

/-- Python `s.split(sep)` on `String`, one-character separator. -/
def pySplit (s : String) (sep : Char) : List String :=
  (splitChar sep s.toList).map String.mk

/-- Python `s.startswith(pre)`. -/
def pyStartsWith (s pre : String) : Bool :=
  pre.toList.isPrefixOf s.toList

/-- Python `c in s` for a single character `c`. -/
def pyContains (s : String) (c : Char) : Bool :=
  s.toList.contains c

/-- Python `s.replace("androidapp://", "android://@")` on the character
list: left-to-right, non-overlapping, scanning resumes after the
replacement.  The fixed pattern `androidapp://` is matched literally so
the recursion is structural. -/
def replaceAndroidAux : List Char → List Char
  | 'a' :: 'n' :: 'd' :: 'r' :: 'o' :: 'i' :: 'd' :: 'a' :: 'p' :: 'p' :: ':' :: '/' :: '/' :: rest =>
      "android://@".toList ++ replaceAndroidAux rest
  | c :: cs => c :: replaceAndroidAux cs
  | [] => []

/-- Python `s.replace("androidapp://", "android://@")`. -/
def pyReplaceAndroid (s : String) : String :=
  String.mk (replaceAndroidAux s.toList)

/-- Python `s.lower()` on ASCII letters (the script lowercases file
extensions). -/
def pyLower (s : String) : String :=
  String.mk (s.toList.map fun c =>
    if 'A' ≤ c ∧ c ≤ 'Z' then Char.ofNat (c.toNat + 32) else c)

/-- `urllib.parse.urlparse(uri).netloc` for the URIs on which the script
calls it: `format_uri` only calls `urlparse` on candidates that start with
`http://` or `https://`, and for those `netloc` is the text after the `//`
up to the first `/`, `?` or `#`.  On a string with no `//` after the
scheme, `urlparse` yields an empty netloc. -/
def urlparseNetloc (uri : String) : String :=
  let cs := uri.toList
  if ("https://".toList).isPrefixOf cs then
    String.mk ((cs.drop 8).takeWhile fun c => !(c == '/' || c == '?' || c == '#'))
  else if ("http://".toList).isPrefixOf cs then
    String.mk ((cs.drop 7).takeWhile fun c => !(c == '/' || c == '?' || c == '#'))
  else
    ""

/-- `str(secure_note_counter)` as it appears inside the f-string
`f"{name} - row:{secure_note_counter}"`: Python renders `None` as the
four letters `None`. -/
def fmtCounter : Option Nat → String
  | some k => toString k
  | none => "None"

/-- `PasswordEntry` dataclass: one normalized Bitwarden record. -/
structure PasswordEntry where
  name : String
  login_uri : String
  login_username : String
  login_password : String
  notes : String
deriving DecidableEq, Repr

/-- The guard of the first branch of the scan in `format_uri`:
`uri.startswith(("http://", "https://"))`. -/
def schemeRule (uri : String) : Bool :=
  pyStartsWith uri "http://" || pyStartsWith uri "https://"

/-- The guard of the second branch of the scan in `format_uri`:
`'.' in uri and not uri.startswith("androidapp://")`. -/
def dotRule (uri : String) : Bool :=
  pyContains uri '.' && !(pyStartsWith uri "androidapp://")

/-- The `for uri in uris:` loop of `format_uri`: first candidate matching
the scheme rule yields `https://` + its netloc, else first candidate
matching the dot rule yields `https://` + the stripped candidate; `none`
when the loop falls through. -/
def scanUris : List String → Option String
  | [] => none
  | uri :: rest =>
    if schemeRule uri then some ("https://" ++ urlparseNetloc uri)
    else if dotRule uri then some ("https://" ++ pyStrip uri)
    else scanUris rest

/-- `PasswordEntry.format_uri`. -/
def PasswordEntry.format_uri (e : PasswordEntry) : String :=
  if e.login_uri = "" then
    "https://mybitwardensecurenotesdonotdelete.com"
  else
    match scanUris (pySplit e.login_uri ',') with
    | some r => r
    | none => pyReplaceAndroid e.login_uri

/-- One output row, as handed to `csv.DictWriter`. -/
structure GoogleRow where
  name : String
  url : String
  username : String
  password : String
  note : String
deriving DecidableEq, Repr

/-- `PasswordEntry.to_google_format`; the Python parameter
`secure_note_counter` defaults to `None`, modelled by `Option Nat`. -/
def PasswordEntry.to_google_format (e : PasswordEntry) (secure_note_counter : Option Nat) : GoogleRow :=
  { name := e.name
    url := e.format_uri
    username :=
      if e.login_username = "" then e.name ++ " - row:" ++ fmtCounter secure_note_counter
      else e.login_username
    password := if e.login_password = "" then "secure_note_password" else e.login_password
    note := e.notes }

/-- The writer's secure-note test in `to_google_csv`:
`if not entry.login_uri and not entry.login_username`. -/
def isSecureNote (e : PasswordEntry) : Bool :=
  e.login_uri == "" && e.login_username == ""

/-- One iteration of the row-writing loop in `to_google_csv`: emit the
mapped row and the counter for the next iteration (incremented exactly
when the entry is a secure note, after passing the current value in). -/
def writerStep (counter : Nat) (e : PasswordEntry) : GoogleRow × Nat :=
  if isSecureNote e then (e.to_google_format (some counter), counter + 1)
  else (e.to_google_format none, counter)

/-- The row-writing loop of `to_google_csv`, threading the counter. -/
def writeRows (counter : Nat) : List PasswordEntry → List GoogleRow
  | [] => []
  | e :: rest => (writerStep counter e).1 :: writeRows (writerStep counter e).2 rest

/-- The header row written by `csv.DictWriter.writeheader()`. -/
def googleHeader : List String :=
  ["name", "url", "username", "password", "note"]

/-- A `GoogleRow` as the writer serialises it: field values in the order of
`fieldnames`. -/
def GoogleRow.toRow (r : GoogleRow) : List String :=
  [r.name, r.url, r.username, r.password, r.note]

/-- `PasswordManager.to_google_csv`: header row, then one row per entry in
input order, counter starting at 1. -/
def to_google_csv (entries : List PasswordEntry) : List (List String) :=
  googleHeader :: (writeRows 1 entries).map GoogleRow.toRow

/-- One row of the tabular input, as produced by `csv.DictReader`:
column-name/value pairs. -/
abbrev CsvRow : Type := List (String × String)

/-- `row.get(key, '')` on a `csv.DictReader` row. -/
def rowGet (row : CsvRow) (key : String) : String :=
  match row.find? (fun p => p.1 == key) with
  | some p => p.2
  | none => ""

/-- The body of the row loop of `PasswordManager.from_csv`. -/
def entryOfRow (row : CsvRow) : PasswordEntry :=
  { name := rowGet row "name"
    login_uri := rowGet row "login_uri"
    login_username := rowGet row "login_username"
    login_password := rowGet row "login_password"
    notes := rowGet row "notes" }

/-- `PasswordManager.from_csv`, taking the parsed rows. -/
def from_csv (rows : List CsvRow) : List PasswordEntry :=
  rows.map entryOfRow

/-- The nested `login` object of a JSON item.  Each element of `uris`
models the `uri` field of the corresponding element of the item's `uris`
list; absent keys are `none` (the source reads them with
`login.get(key, '')`). -/
structure LoginData where
  uris : List String
  username : Option String
  password : Option String
deriving DecidableEq, Repr

/-- The nested `identity` object of a JSON item; absent keys are `none`. -/
structure IdentityData where
  firstName : Option String
  lastName : Option String
  phone : Option String
  email : Option String
  address1 : Option String
  company : Option String
deriving DecidableEq, Repr

/-- One element of the top-level `items` list of the JSON input; absent
keys are `none` (the source reads them with `item.get(...)`). -/
structure Item where
  type : Option Nat
  name : Option String
  notes : Option String
  login : Option LoginData
  identity : Option IdentityData
deriving DecidableEq, Repr

/-- The body of the item loop of `PasswordManager.from_json`: dispatch on
the `type` discriminator (1 = Login, 4 = Identity, anything else =
default). -/
def entryOfItem (item : Item) : PasswordEntry :=
  if item.type = some 1 then
    let login := item.login.getD ⟨[], none, none⟩
    let uri := match login.uris with
      | [] => ""
      | u :: _ => u
    { name := item.name.getD ""
      login_uri := uri
      login_username := login.username.getD ""
      login_password := login.password.getD ""
      notes := item.notes.getD "" }
  else if item.type = some 4 then
    let identity := item.identity.getD ⟨none, none, none, none, none, none⟩
    { name := item.name.getD ""
      login_uri := ""
      login_username := ""
      login_password := ""
      notes :=
        "Name: " ++ identity.firstName.getD "" ++ " " ++ identity.lastName.getD "" ++ "\n" ++
        "Phone: " ++ identity.phone.getD "" ++ "\n" ++
        "Email: " ++ identity.email.getD "" ++ "\n" ++
        "Address: " ++ identity.address1.getD "" ++ "\n" ++
        "Company: " ++ identity.company.getD "" ++ "\n" ++
        "Notes: " ++ item.notes.getD "" }
  else
    { name := item.name.getD ""
      login_uri := ""
      login_username := ""
      login_password := ""
      notes := item.notes.getD "" }

/-- `PasswordManager.from_json`, taking the parsed `items` list. -/
def from_json (items : List Item) : List PasswordEntry :=
  items.map entryOfItem

/-- The error message raised by `main` on an unsupported extension. -/
def unsupportedMsg : String :=
  "Unsupported file format. Please provide a CSV or JSON file."

/-- The pipeline of `main`, from the lowercased-extension dispatch on:
file I/O is modelled at the data boundary, so the readers' parsed inputs
are parameters and the produced output rows are the result.  The
unsupported-extension branch raises before either reader runs and before
any output row exists. -/
def mainPipeline (suffix : String) (csvRows : List CsvRow) (jsonItems : List Item) :
    Except String (List (List String)) :=
  if pyLower suffix = ".csv" then Except.ok (to_google_csv (from_csv csvRows))
  else if pyLower suffix = ".json" then Except.ok (to_google_csv (from_json jsonItems))
  else Except.error unsupportedMsg

/-- Concatenation of strings is associative (on the character data). -/
theorem strAppendAssoc (a b c : String) : a ++ b ++ c = a ++ (b ++ c) := by
  cases a
  cases b
  cases c
  show String.append (String.append _ _) _ = String.append _ (String.append _ _)
  simp [String.append]

/-- Candidates matching neither rule are skipped by the scan. -/
theorem scanUris_append_skip (pre l : List String)
    (h : ∀ c0 ∈ pre, schemeRule c0 = false ∧ dotRule c0 = false) :
    scanUris (pre ++ l) = scanUris l := by
  induction pre with
  | nil => rfl
  | cons a as ih =>
    have ha := h a (by simp)
    simp only [List.cons_append, scanUris, ha.1, ha.2]
    simp [ih (fun c0 hc0 => h c0 (by simp [hc0]))]

/-- The writer emits exactly one row per entry. -/
theorem writeRows_length (c : Nat) (entries : List PasswordEntry) :
    (writeRows c entries).length = entries.length := by
  induction entries generalizing c with
  | nil => rfl
  | cons e rest ih => simp [writeRows, ih]

/-- Value of the i-th row emitted by the writer loop, for an arbitrary
initial counter: the counter passed to the i-th entry is the initial one
plus the number of secure-note entries strictly before it. -/
theorem writeRows_get? (entries : List PasswordEntry) :
    ∀ (c i : Nat) (e : PasswordEntry), entries.get? i = some e →
      (writeRows c entries).get? i =
        some (e.to_google_format
          (if isSecureNote e then
            some (c + ((entries.take i).filter isSecureNote).length)
          else none)) := by
  induction entries with
  | nil => intro c i e h; simp at h
  | cons e0 rest ih =>
    intro c i e h
    cases i with
    | zero =>
      simp only [List.get?_cons_zero, Option.some.injEq] at h
      subst h
      cases hs : isSecureNote e0 <;>
        simp [writeRows, writerStep, hs]
    | succ i =>
      simp only [List.get?_cons_succ] at h
      have hcnt : (writerStep c e0).2 + ((rest.take i).filter isSecureNote).length =
          c + (((e0 :: rest).take (i + 1)).filter isSecureNote).length := by
        cases hs : isSecureNote e0
        · simp [writerStep, hs, List.take_succ_cons, List.filter_cons]
        · simp [writerStep, hs, List.take_succ_cons, List.filter_cons]
          omega
      have key := ih (writerStep c e0).2 i e h
      rw [hcnt] at key
      simpa [writeRows] using key

/-- C1: for a non-empty `login_uri`, `format_uri` splits on commas and
scans the candidates in order: the first candidate matching the scheme
rule yields `https://` plus its network location; otherwise a candidate
matching the dot rule (checked only after the scheme rule fails on it)
yields `https://` plus the stripped candidate; earlier candidates matching
neither rule are skipped; if no candidate matches either rule the result
is the original unsplit `login_uri` with every `androidapp://` replaced by
`android://@`, so `format_uri` of `androidapp://com.example` alone is
`android://@com.example`. -/
theorem format_uri_first_match (e : PasswordEntry) (hne : e.login_uri ≠ "") :
    (∀ pre c post,
        pySplit e.login_uri ',' = pre ++ c :: post →
        (∀ c0 ∈ pre, schemeRule c0 = false ∧ dotRule c0 = false) →
        (schemeRule c = true → e.format_uri = "https://" ++ urlparseNetloc c) ∧
        (schemeRule c = false → dotRule c = true →
          e.format_uri = "https://" ++ pyStrip c)) ∧
    ((∀ c0 ∈ pySplit e.login_uri ',', schemeRule c0 = false ∧ dotRule c0 = false) →
        e.format_uri = pyReplaceAndroid e.login_uri) ∧
    PasswordEntry.format_uri
      ⟨e.name, "androidapp://com.example", e.login_username, e.login_password, e.notes⟩ =
      "android://@com.example" := by
  refine ⟨?_, ?_, rfl⟩
  · intro pre c post hsplit hpre
    constructor
    · intro hc
      unfold PasswordEntry.format_uri
      rw [if_neg hne, hsplit, scanUris_append_skip pre (c :: post) hpre]
      simp [scanUris, hc]
    · intro hc1 hc2
      unfold PasswordEntry.format_uri
      rw [if_neg hne, hsplit, scanUris_append_skip pre (c :: post) hpre]
      simp [scanUris, hc1, hc2]
  · intro hall
    have hnone := scanUris_append_skip (pySplit e.login_uri ',') [] hall
    simp only [List.append_nil, scanUris] at hnone
    unfold PasswordEntry.format_uri
    rw [if_neg hne, hnone]

/-- Witness for C1 at a concrete entry: first candidate matches neither
rule, second matches the dot rule. -/
theorem format_uri_first_match_witness :
    PasswordEntry.format_uri ⟨"n", "x,example.com", "u", "p", "t"⟩ = "https://example.com" := by
  have h := (format_uri_first_match ⟨"n", "x,example.com", "u", "p", "t"⟩ (by decide)).1
    ["x"] "example.com" [] (by decide) (by decide)
  exact h.2 (by decide) (by decide)

/-- C2: an entry with empty `login_uri` is formatted to the fixed sentinel
URL, whatever its other fields. -/
theorem format_uri_empty_sentinel (e : PasswordEntry) (h : e.login_uri = "") :
    e.format_uri = "https://mybitwardensecurenotesdonotdelete.com" := by
  unfold PasswordEntry.format_uri
  rw [if_pos h]

/-- Witness for C2 at an entry whose other fields are all non-empty. -/
theorem format_uri_empty_sentinel_witness :
    PasswordEntry.format_uri ⟨"N", "", "user", "pw", "note text"⟩ =
      "https://mybitwardensecurenotesdonotdelete.com" :=
  format_uri_empty_sentinel ⟨"N", "", "user", "pw", "note text"⟩ rfl

/-- C3 counterexample: called without a counter on an entry with empty
username but non-empty `login_uri`, `to_google_format` still synthesizes a
placeholder, and that placeholder is `Foo - row:None` (Python renders the
`None` default inside the f-string), not the bare name. -/
theorem to_google_format_no_counter_cex :
    (PasswordEntry.to_google_format ⟨"Foo", "a.com", "", "pw", ""⟩ none).username =
      "Foo - row:None" ∧
    "Foo - row:None" ≠ "Foo" := by
  decide

/-- C3 amended: with no counter supplied, the synthesized placeholder is
the entry's name followed by the literal suffix ` - row:None`; it is
produced exactly when `login_username` is empty, regardless of
`login_uri`, and a non-empty username is kept verbatim. -/
theorem to_google_format_no_counter_username (e : PasswordEntry) :
    (e.login_username = "" →
      (e.to_google_format none).username = e.name ++ " - row:None") ∧
    (e.login_username ≠ "" →
      (e.to_google_format none).username = e.login_username) := by
  constructor
  · intro h
    simp only [PasswordEntry.to_google_format, h, fmtCounter, if_pos]
    rw [strAppendAssoc]
    rfl
  · intro h
    simp [PasswordEntry.to_google_format, h]

/-- Witness for the amended C3, covering both branches. -/
theorem to_google_format_no_counter_username_witness :
    (PasswordEntry.to_google_format ⟨"Foo", "a.com", "", "pw", ""⟩ none).username =
      "Foo - row:None" ∧
    (PasswordEntry.to_google_format ⟨"Foo", "", "u", "", ""⟩ none).username = "u" :=
  ⟨(to_google_format_no_counter_username ⟨"Foo", "a.com", "", "pw", ""⟩).1 rfl,
   (to_google_format_no_counter_username ⟨"Foo", "", "u", "", ""⟩).2 (by decide)⟩

/-- C4: with the writer's counter initialized to 1, the i-th row is the
i-th entry mapped with `some (1 + number of secure-note entries strictly
before it)` when the entry is a secure note (hence the k-th secure note in
input order receives counter value k), and with no counter otherwise. -/
theorem secure_note_counter_kth (entries : List PasswordEntry) (i : Nat)
    (e : PasswordEntry) (h : entries.get? i = some e) :
    (writeRows 1 entries).get? i =
      some (e.to_google_format
        (if isSecureNote e then
          some (1 + ((entries.take i).filter isSecureNote).length)
        else none)) :=
  writeRows_get? entries 1 i e h

/-- Witness for C4: secure note, then an entry with a username (consuming
no counter value), then a second secure note which receives counter 2. -/
theorem secure_note_counter_kth_witness :
    (writeRows 1 [⟨"A", "", "", "", ""⟩, ⟨"B", "", "u", "", ""⟩, ⟨"C", "", "", "", ""⟩]).get? 2 =
      some (PasswordEntry.to_google_format ⟨"C", "", "", "", ""⟩ (some 2)) := by
  have h := secure_note_counter_kth
    [⟨"A", "", "", "", ""⟩, ⟨"B", "", "u", "", ""⟩, ⟨"C", "", "", "", ""⟩] 2
    ⟨"C", "", "", "", ""⟩ (by decide)
  exact h.trans (by decide)

/-- C5: round trip of a single tabular row with name `Foo` and every other
field empty: one data row, sentinel url, placeholder password, username
`Foo - row:1`. -/
theorem csv_roundtrip_single_row :
    to_google_csv (from_csv
      [[("name", "Foo"), ("login_uri", ""), ("login_username", ""),
        ("login_password", ""), ("notes", "")]]) =
    [["name", "url", "username", "password", "note"],
     ["Foo", "https://mybitwardensecurenotesdonotdelete.com", "Foo - row:1",
      "secure_note_password", ""]] := by
  decide

/-- C6: an Identity-type item with firstName Jane, lastName Doe and every
other identity field (and the item's notes) empty yields empty uri,
username and password, and notes made of exactly six labeled lines in
fixed order with both names on the single Name line. -/
theorem from_json_identity_notes : ∀ name : Option String,
    (entryOfItem ⟨some 4, name, some "", none,
        some ⟨some "Jane", some "Doe", some "", some "", some "", some ""⟩⟩).login_uri = "" ∧
    (entryOfItem ⟨some 4, name, some "", none,
        some ⟨some "Jane", some "Doe", some "", some "", some "", some ""⟩⟩).login_username = "" ∧
    (entryOfItem ⟨some 4, name, some "", none,
        some ⟨some "Jane", some "Doe", some "", some "", some "", some ""⟩⟩).login_password = "" ∧
    (entryOfItem ⟨some 4, name, some "", none,
        some ⟨some "Jane", some "Doe", some "", some "", some "", some ""⟩⟩).notes =
      "Name: Jane Doe\nPhone: \nEmail: \nAddress: \nCompany: \nNotes: " ∧
    pySplit (entryOfItem ⟨some 4, name, some "", none,
        some ⟨some "Jane", some "Doe", some "", some "", some "", some ""⟩⟩).notes '\n' =
      ["Name: Jane Doe", "Phone: ", "Email: ", "Address: ", "Company: ", "Notes: "] := by
  intro name
  exact ⟨rfl, rfl, rfl, rfl, rfl⟩

/-- C7: the writer's output is the header row followed by exactly one data
row per input entry, in input order (the (i+1)-th output row is the i-th
entry mapped to the Google schema). -/
theorem to_google_csv_shape (entries : List PasswordEntry) :
    (to_google_csv entries).get? 0 = some ["name", "url", "username", "password", "note"] ∧
    (to_google_csv entries).length = entries.length + 1 ∧
    ∀ i e, entries.get? i = some e →
      ∃ c : Option Nat,
        (to_google_csv entries).get? (i + 1) =
          some (GoogleRow.toRow (e.to_google_format c)) := by
  refine ⟨rfl, ?_, ?_⟩
  · simp [to_google_csv, writeRows_length]
  · intro i e h
    refine ⟨if isSecureNote e then
        some (1 + ((entries.take i).filter isSecureNote).length) else none, ?_⟩
    have key := writeRows_get? entries 1 i e h
    simp only [to_google_csv, List.get?_cons_succ, List.get?_map, key]
    rfl

/-- Witness for C7 on a one-entry list. -/
theorem to_google_csv_shape_witness :
    (to_google_csv [⟨"A", "", "", "", ""⟩]).get? 0 =
      some ["name", "url", "username", "password", "note"] ∧
    (to_google_csv [⟨"A", "", "", "", ""⟩]).length = 2 ∧
    ∃ c : Option Nat,
      (to_google_csv [⟨"A", "", "", "", ""⟩]).get? 1 =
        some (GoogleRow.toRow (PasswordEntry.to_google_format ⟨"A", "", "", "", ""⟩ c)) :=
  ⟨(to_google_csv_shape [⟨"A", "", "", "", ""⟩]).1,
   (to_google_csv_shape [⟨"A", "", "", "", ""⟩]).2.1,
   (to_google_csv_shape [⟨"A", "", "", "", ""⟩]).2.2 0 ⟨"A", "", "", "", ""⟩ (by decide)⟩

/-- C8: the lowercased input extension alone selects the pipeline: an
extension that is neither `.csv` nor `.json` yields the descriptive error
(and no output rows), `.csv` runs the tabular reader, `.json` the
structured reader. -/
theorem main_dispatch (suffix : String) (csvRows : List CsvRow) (jsonItems : List Item) :
    (pyLower suffix ≠ ".csv" → pyLower suffix ≠ ".json" →
      mainPipeline suffix csvRows jsonItems = Except.error unsupportedMsg) ∧
    (pyLower suffix = ".csv" →
      mainPipeline suffix csvRows jsonItems = Except.ok (to_google_csv (from_csv csvRows))) ∧
    (pyLower suffix = ".json" →
      mainPipeline suffix csvRows jsonItems = Except.ok (to_google_csv (from_json jsonItems))) := by
  refine ⟨fun h1 h2 => ?_, fun h => ?_, fun h => ?_⟩
  · unfold mainPipeline
    rw [if_neg h1, if_neg h2]
  · unfold mainPipeline
    rw [if_pos h]
  · have hne : pyLower suffix ≠ ".csv" := by rw [h]; decide
    unfold mainPipeline
    rw [if_neg hne, if_pos h]

/-- Witness for C8 at the three kinds of (uppercased) extensions. -/
theorem main_dispatch_witness :
    mainPipeline ".TXT" [] [] = Except.error unsupportedMsg ∧
    mainPipeline ".CSV" [] [] = Except.ok (to_google_csv (from_csv [])) ∧
    mainPipeline ".JSON" [] [] = Except.ok (to_google_csv (from_json [])) :=
  ⟨(main_dispatch ".TXT" [] []).1 (by decide) (by decide),
   (main_dispatch ".CSV" [] []).2.1 (by decide),
   (main_dispatch ".JSON" [] []).2.2 (by decide)⟩

/-- C9: a JSON item whose type is not 1 (Login) always yields an entry
with empty uri, username and password — whatever login data the item
carries — so the writer's step on it emits the sentinel url, the literal
`secure_note_password`, the synthesized username `name - row:k` for the
current counter k, and increments the counter. -/
theorem from_json_non_login_secure_note (item : Item) (h : item.type ≠ some 1) :
    (entryOfItem item).login_uri = "" ∧
    (entryOfItem item).login_username = "" ∧
    (entryOfItem item).login_password = "" ∧
    ∀ k : Nat, writerStep k (entryOfItem item) =
      ({ name := (entryOfItem item).name
         url := "https://mybitwardensecurenotesdonotdelete.com"
         username := (entryOfItem item).name ++ " - row:" ++ toString k
         password := "secure_note_password"
         note := (entryOfItem item).notes }, k + 1) := by
  unfold entryOfItem
  rw [if_neg h]
  by_cases h4 : item.type = some 4 <;>
    simp [h4, writerStep, isSecureNote, PasswordEntry.to_google_format,
      PasswordEntry.format_uri, fmtCounter]

/-- Witness for C9: an item of type 2 that carries full login data is
still mapped to a secure-note row and consumes the counter. -/
theorem from_json_non_login_secure_note_witness :
    writerStep 1 (entryOfItem
      ⟨some 2, some "Id", some "plain", some ⟨["http://x.com"], some "user", some "pw"⟩, none⟩) =
    ({ name := "Id", url := "https://mybitwardensecurenotesdonotdelete.com",
       username := "Id - row:1", password := "secure_note_password", note := "plain" }, 2) := by
  have h := from_json_non_login_secure_note
    ⟨some 2, some "Id", some "plain", some ⟨["http://x.com"], some "user", some "pw"⟩, none⟩
    (by decide)
  exact (h.2.2.2 1).trans (by decide)

/-- C10: comma-split candidates are not trimmed before the prefix tests:
`foo, https://bar.com` yields the doubled-scheme result
`https://https://bar.com` (the space-prefixed candidate fails the scheme
rule and the dot rule then prepends `https://` to the stripped candidate),
and the scheme rule never holds for a candidate starting with
whitespace. -/
theorem scheme_rule_untrimmed :
    PasswordEntry.format_uri ⟨"e", "foo, https://bar.com", "u", "p", "n"⟩ =
      "https://https://bar.com" ∧
    ∀ (c : String) (ch : Char) (cs : List Char),
      c.toList = ch :: cs → pyIsSpace ch = true → schemeRule c = false := by
  constructor
  · decide
  · intro c ch cs hlist hsp
    have hch : ('h' == ch) = false := by
      cases hb : ('h' == ch)
      · rfl
      · have : ch = 'h' := (eq_of_beq hb).symm
        subst this
        exact absurd hsp (by decide)
    have h7 : List.isPrefixOf ("http://".toList) (ch :: cs) = false := by
      simp only [show "http://".toList = 'h' :: "ttp://".toList from rfl, List.isPrefixOf, hch,
        Bool.false_and]
    have h8 : List.isPrefixOf ("https://".toList) (ch :: cs) = false := by
      simp only [show "https://".toList = 'h' :: "ttps://".toList from rfl, List.isPrefixOf, hch,
        Bool.false_and]
    unfold schemeRule pyStartsWith
    rw [hlist, h7, h8]
    rfl

/-- Witness for C10's universal part at the space-prefixed candidate that
the concrete example scans. -/
theorem scheme_rule_untrimmed_witness :
    schemeRule " https://bar.com" = false ∧
    PasswordEntry.format_uri ⟨"e", "foo, https://bar.com", "u", "p", "n"⟩ =
      "https://https://bar.com" :=
  ⟨scheme_rule_untrimmed.2 " https://bar.com" ' ' ("https://bar.com".toList)
      (by decide) (by decide),
   scheme_rule_untrimmed.1⟩
